import Mathlib

/-!
Shallow embedding of the split-retry duplex stream (`retrier` in package
`intra`, file src/unnamed/part_000) and proofs about it.

Modelling decisions:
* Bytes are `Nat`; payloads are `List Nat`.
* `time.Time` / `time.Duration` are `Int` (nanoseconds);
  `time.Millisecond = 1000000` nanoseconds.
* The external transport (`net.TCPConn`) is modelled at its boundary: a
  `Conn` records the half-close state and the byte chunks delivered to it,
  while the outcomes of its `Read`/`Write` calls are supplied by explicit
  environment parameters (`ReadOutcome` / `WriteOutcome`), since the real
  outcomes depend on the network.  A `none` connection models Go's nil
  `*net.TCPConn`, whose methods return an `EINVAL` error (Go's `c.ok()`
  check) instead of doing any I/O.
* `rand.Intn(n)` is modelled by an explicit parameter, constrained to
  `< n` by hypotheses where the claims need it.
* The two-threaded object is sequentialised: each critical section or
  lock-free section of an operation is one atomic step (`Label`), and a
  behaviour of the stream is a `List Label` executed by `execTrace`.  A
  `Write` whose provisional write fails spans the retry decision, so it
  contributes two steps: its locked part and, after the flag closes, its
  blocked tail.
* The ghost fields `retryCount` and `dialCount` count executions of the
  retry procedure and of `net.DialTCP` after construction; they change
  nothing observable and exist only to state the invariants.
-/

/-- Error values a modelled operation can return.  `einval` is the error Go's
net package returns for operations on a nil connection. -/
inductive Err where
  | einval
  | eof
  | reset
  | dialFail
  | other (code : Nat)
deriving DecidableEq, Repr

/-- Outcome the environment assigns to one `conn.Write` call: the count the
transport reports and the error, if any. -/
structure WriteOutcome where
  n : Nat
  err : Option Err
deriving DecidableEq, Repr

/-- Outcome the environment assigns to one `conn.Read` call. -/
structure ReadOutcome where
  n : Nat
  err : Option Err
deriving DecidableEq, Repr

/-- Boundary model of one `net.TCPConn`: its identity, half-close state,
the chunks written to it (in order), and whether `Close` was called. -/
structure Conn where
  id : Nat
  readHalfClosed : Bool
  writeHalfClosed : Bool
  writes : List (List Nat)
  isClosed : Bool
deriving DecidableEq, Repr

/-- A freshly dialed connection. -/
def Conn.fresh (id : Nat) : Conn :=
  { id := id, readHalfClosed := false, writeHalfClosed := false,
    writes := [], isClosed := false }

/-- Model of `conn.Write(b)`: the transport delivers the first `n` bytes and
reports `(n, err)` as chosen by the environment, with `n` capped at `len b`
per the `io.Writer` contract. -/
def Conn.write (c : Conn) (b : List Nat) (out : WriteOutcome) :
    Conn × Nat × Option Err :=
  let n := min out.n b.length
  ({ c with writes := c.writes ++ [b.take n] }, n, out.err)

/-- Model of `conn.CloseRead()` on the transport. -/
def Conn.closeRead (c : Conn) : Conn := { c with readHalfClosed := true }

/-- Model of `conn.CloseWrite()` on the transport. -/
def Conn.closeWrite (c : Conn) : Conn := { c with writeHalfClosed := true }

/-- Model of `conn.Close()` on the transport. -/
def Conn.close (c : Conn) : Conn := { c with isClosed := true }

/-- Write on a possibly-nil connection: Go's net methods return `EINVAL` on a
nil receiver without touching the network. -/
def connWrite : Option Conn → List Nat → WriteOutcome →
    Option Conn × Nat × Option Err
  | none, _, _ => (none, 0, some Err.einval)
  | some c, b, out =>
      let w := Conn.write c b out
      (some w.1, w.2.1, w.2.2)

/-- Read on a possibly-nil connection. -/
def connRead : Option Conn → ReadOutcome → Nat × Option Err
  | none, _ => (0, some Err.einval)
  | some _, out => (out.n, out.err)

/-- CloseRead on a possibly-nil connection. -/
def connCloseRead : Option Conn → Option Conn × Option Err
  | none => (none, some Err.einval)
  | some c => (some c.closeRead, none)

/-- CloseWrite on a possibly-nil connection. -/
def connCloseWrite : Option Conn → Option Conn × Option Err
  | none => (none, some Err.einval)
  | some c => (some c.closeWrite, none)

/-- One nanosecond count of `time.Millisecond`. -/
def millisecond : Int := 1000000

/-- Embedding of `timeout(before, after)` (part_000 lines 70-76): times in
nanoseconds, result `1200*time.Millisecond + 2*rtt`. -/
def timeout (before after : Int) : Int :=
  let rtt := after - before
  1200 * millisecond + 2 * rtt

/-- Embedding of `MIN_SPLIT`. -/
def MIN_SPLIT : Nat := 32

/-- Embedding of `MAX_SPLIT`. -/
def MAX_SPLIT : Nat := 64

/-- Embedding of `splitHello` (part_000 lines 157-173).  `rnd` models the
value of `rand.Intn(MAX_SPLIT+1-MIN_SPLIT)`, which is `< 33`. -/
def splitHello (hello : List Nat) (rnd : Nat) : List Nat × List Nat :=
  if hello.length = 0 then (hello, hello)
  else
    let s0 := MIN_SPLIT + rnd
    let limit := hello.length / 2
    let s := if s0 > limit then limit else s0
    (hello.take s, hello.drop s)

/-- Embedding of the `retrier` struct (part_000 lines 12-34).  `conn` is
`Option` so a nil connection (after a failed retry dial) is representable;
the three `chan struct{}` flags are booleans (`true` = closed); `mutex`,
`network`, `addr` and the read deadline armed on the transport need no
representation in this sequentialised model.  `retryCount` and `dialCount`
are ghost instrumentation. -/
structure retrier where
  conn : Option Conn
  timeout : Int
  hello : List Nat
  retryCompleteFlag : Bool
  readCloseFlag : Bool
  writeCloseFlag : Bool
  retryCount : Nat
  dialCount : Nat
deriving DecidableEq, Repr

/-- Environment for one execution of the retry procedure: the dial outcome
(`some e` = `net.DialTCP` failed with `e`), the random split draw, the
outcomes of the two replay writes, and the outcome of the final read on the
new connection. -/
structure RetryEnv where
  dialErr : Option Err
  rnd : Nat
  writeOut1 : WriteOutcome
  writeOut2 : WriteOutcome
  readOut : ReadOutcome
deriving DecidableEq, Repr

/-- Environment for one `Read` call: the outcome of the read on the current
connection, plus the retry environment in case the retry procedure runs. -/
structure ReadEnv where
  readOut : ReadOutcome
  retryEnv : RetryEnv
deriving DecidableEq, Repr

/-- Embedding of `DialWithSplitRetry` (part_000 lines 82-101) after a
successful initial dial: the initial connection has id 0, `hello` is empty
and all three flags are open. -/
def DialWithSplitRetry (t : Int) : retrier :=
  { conn := some (Conn.fresh 0), timeout := t, hello := [],
    retryCompleteFlag := false, readCloseFlag := false,
    writeCloseFlag := false, retryCount := 0, dialCount := 0 }

/-- Embedding of `retrier.retry` (part_000 lines 123-146): close the old
connection, dial a replacement (on failure `r.conn` becomes nil and the dial
error is returned); on success write the two `splitHello` pieces, returning
immediately on a write error; then copy `readCloseFlag`/`writeCloseFlag` to
the new connection and read from it. -/
def retrier.retry (r : retrier) (env : RetryEnv) : retrier × Nat × Option Err :=
  let r := { r with conn := r.conn.map Conn.close,
                    retryCount := r.retryCount + 1,
                    dialCount := r.dialCount + 1 }
  match env.dialErr with
  | some e => ({ r with conn := none }, 0, some e)
  | none =>
    let c := Conn.fresh r.dialCount
    let pieces := splitHello r.hello env.rnd
    let w1 := Conn.write c pieces.1 env.writeOut1
    match w1.2.2 with
    | some e => ({ r with conn := some w1.1 }, 0, some e)
    | none =>
      let w2 := Conn.write w1.1 pieces.2 env.writeOut2
      match w2.2.2 with
      | some e => ({ r with conn := some w2.1 }, 0, some e)
      | none =>
        let c2 := if r.readCloseFlag then w2.1.closeRead else w2.1
        let c3 := if r.writeCloseFlag then c2.closeWrite else c2
        ({ r with conn := some c3 }, env.readOut.n, env.readOut.err)

/-- Embedding of `retrier.Read` (part_000 lines 104-121): read the current
connection; a zero-byte, nil-error read returns unchanged; otherwise, if the
retry flag is still open, run the retry procedure when the read failed, then
close the flag and clear `hello`. -/
def retrier.Read (r : retrier) (env : ReadEnv) : retrier × Nat × Option Err :=
  let res := connRead r.conn env.readOut
  if res.1 = 0 ∧ res.2 = none then (r, res.1, res.2)
  else if r.retryCompleteFlag = false then
    let step := if res.2.isSome then r.retry env.retryEnv else (r, res.1, res.2)
    ({ step.1 with retryCompleteFlag := true, hello := [] }, step.2.1, step.2.2)
  else (r, res.1, res.2)

/-- Embedding of the atomic part of `retrier.Write` (part_000 lines
176-192): with the retry flag closed the fast path writes directly; with it
open the locked slow path writes and appends the bytes actually written
(`b[:n]`) to `hello`.  If the slow-path write errors, the remaining lines
198-205 block on the flag; that continuation is `retrier.writeResume`. -/
def retrier.writeAttempt (r : retrier) (b : List Nat) (out : WriteOutcome) :
    retrier × Nat × Option Err :=
  let w := connWrite r.conn b out
  if r.retryCompleteFlag then ({ r with conn := w.1 }, w.2.1, w.2.2)
  else ({ r with conn := w.1, hello := r.hello ++ b.take w.2.1 }, w.2.1, w.2.2)

/-- Embedding of the blocked tail of `retrier.Write` (part_000 lines
198-205), entered only after `retryCompleteFlag` is closed: write the
unwritten remainder `b[n:]` to the now-final connection and add its count. -/
def retrier.writeResume (r : retrier) (b : List Nat) (n : Nat)
    (out : WriteOutcome) : retrier × Nat × Option Err :=
  let w := connWrite r.conn (b.drop n) out
  ({ r with conn := w.1 }, n + w.2.1, w.2.2)

/-- Environment for one full `Write` call.  `resumeState` is the retrier
state observed after `<-r.retryCompleteFlag` unblocks (lines 198-201): in
the two-threaded original it is whatever state the reader thread left after
deciding the retry, so the sequential model takes it as a parameter,
constrained by hypotheses to have the flag closed. -/
structure WriteCallEnv where
  slowOut : WriteOutcome
  resumeState : retrier
  resumeOut : WriteOutcome
deriving DecidableEq, Repr

/-- Embedding of the full `retrier.Write` (part_000 lines 176-213): the
atomic attempt, then, only if the provisional write failed, the blocked
remainder write against the post-retry state.  The final Go block (lines
208-211) tests the local `conn` variable, which the blocked branch
reassigns to `r.conn` at line 200: so after a blocked tail against a nil
post-retry connection that block fires too and rewrites `b` to the (also
nil) `r.conn`.  When the flag was closed at the checks, `conn` stays nil
and that block is the fast path writing `b` to `r.conn` (that case is the
`retryCompleteFlag` branch of `writeAttempt`).  The nil-conn rewrite never
reaches the network, so reusing `resumeOut` there is outcome-irrelevant. -/
def retrier.Write (r : retrier) (b : List Nat) (env : WriteCallEnv) :
    retrier × Nat × Option Err :=
  let a := r.writeAttempt b env.slowOut
  if r.retryCompleteFlag then a
  else if a.2.2.isSome then
    let res := env.resumeState.writeResume b a.2.1 env.resumeOut
    if env.resumeState.conn.isNone then
      let w := connWrite res.1.conn b env.resumeOut
      ({ res.1 with conn := w.1 }, w.2.1, w.2.2)
    else res
  else a

/-- Embedding of `retrier.CloseRead` (part_000 lines 148-155). -/
def retrier.CloseRead (r : retrier) : retrier × Option Err :=
  let r1 := if r.readCloseFlag then r else { r with readCloseFlag := true }
  let res := connCloseRead r1.conn
  ({ r1 with conn := res.1 }, res.2)

/-- Embedding of `retrier.CloseWrite` (part_000 lines 237-244). -/
def retrier.CloseWrite (r : retrier) : retrier × Option Err :=
  let r1 := if r.writeCloseFlag then r else { r with writeCloseFlag := true }
  let res := connCloseWrite r1.conn
  ({ r1 with conn := res.1 }, res.2)

/-- Model of `conn.ReadFrom(reader)` delegation (part_000 line 232): the
bulk copy delivers `data` to the connection; a nil connection receives
nothing. -/
def connRecordBulk : Option Conn → List Nat → Option Conn
  | none, _ => none
  | some c, data => some { c with writes := c.writes ++ [data] }

/-- One atomic step a thread can take against the retrier.  `lWrite` is the
locked/fast part of `Write`; `lWriteResume` is the tail of a `Write` whose
provisional write failed (it can only run once the flag is closed, which the
step function enforces as its guard, mirroring `<-r.retryCompleteFlag`);
`lReadFromChunk` is one loop iteration of `ReadFrom` (which calls `Write`);
`lReadFromBulk` is the delegated bulk copy after the flag closes. -/
inductive Label where
  | lRead (env : ReadEnv)
  | lWrite (b : List Nat) (out : WriteOutcome)
  | lWriteResume (b : List Nat) (n : Nat) (out : WriteOutcome)
  | lCloseRead
  | lCloseWrite
  | lReadFromChunk (chunk : List Nat) (out : WriteOutcome)
  | lReadFromBulk (data : List Nat)
deriving DecidableEq, Repr

/-- State transition of one step (return values discarded). -/
def stepR (r : retrier) (l : Label) : retrier :=
  match l with
  | .lRead env => (r.Read env).1
  | .lWrite b out => (r.writeAttempt b out).1
  | .lWriteResume b n out =>
      if r.retryCompleteFlag then (r.writeResume b n out).1 else r
  | .lCloseRead => r.CloseRead.1
  | .lCloseWrite => r.CloseWrite.1
  | .lReadFromChunk chunk out => (r.writeAttempt chunk out).1
  | .lReadFromBulk data =>
      if r.retryCompleteFlag then { r with conn := connRecordBulk r.conn data }
      else r

/-- Execution of a sequence of steps. -/
def execTrace (r : retrier) : List Label → retrier
  | [] => r
  | l :: ls => execTrace (stepR r l) ls

/-- Invariant tying the ghost counters to the retry flag: while the flag is
open no retry and no redial has happened, and neither ever happens twice. -/
def InvCount (r : retrier) : Prop :=
  (r.retryCompleteFlag = false → r.retryCount = 0 ∧ r.dialCount = 0)
  ∧ r.retryCount ≤ 1 ∧ r.dialCount ≤ 1

/-- Concrete fixtures used by the witness theorems. -/
def outOK : WriteOutcome := { n := 1000, err := none }

/-- A provisional write outcome that reports 2 bytes and an error. -/
def outFail : WriteOutcome := { n := 2, err := some Err.reset }

/-- A failed read outcome. -/
def roFail : ReadOutcome := { n := 0, err := some Err.reset }

/-- A successful 4-byte read outcome. -/
def roData : ReadOutcome := { n := 4, err := none }

/-- The ambiguous zero-byte, nil-error read outcome. -/
def roEmpty : ReadOutcome := { n := 0, err := none }

/-- A retry environment in which everything succeeds. -/
def retryEnvOK : RetryEnv :=
  { dialErr := none, rnd := 5, writeOut1 := outOK, writeOut2 := outOK,
    readOut := roData }

/-- A retry environment whose dial fails. -/
def retryEnvDialFail : RetryEnv :=
  { dialErr := some Err.dialFail, rnd := 5, writeOut1 := outOK,
    writeOut2 := outOK, readOut := roData }

/-- A read environment: the read fails, the retry succeeds. -/
def envRetryOK : ReadEnv := { readOut := roFail, retryEnv := retryEnvOK }

/-- A read environment: the read fails and the retry dial also fails. -/
def envDialFail : ReadEnv := { readOut := roFail, retryEnv := retryEnvDialFail }

/-- A read environment delivering the ambiguous empty read. -/
def envEmpty : ReadEnv := { readOut := roEmpty, retryEnv := retryEnvOK }

/-- A freshly constructed stream. -/
def r0 : retrier := DialWithSplitRetry 0

/-- The stream after a first Read that failed and a successful retry. -/
def rClosedOK : retrier := (r0.Read envRetryOK).1

/-- The stream after CloseRead was called before any Write or Read. -/
def rCR : retrier := r0.CloseRead.1

/-- The new connection produced by a successful retry after an early
CloseRead. -/
def cWitness : Conn := ((rCR.retry retryEnvOK).1.conn).getD (Conn.fresh 0)

/-- A full-Write environment whose provisional write fails and whose blocked
tail resumes against `rClosedOK`. -/
def wEnvBlocked : WriteCallEnv :=
  { slowOut := outFail, resumeState := rClosedOK, resumeOut := outOK }

/-- The stream after a first Read whose retry dial failed: flag closed,
connection nil. -/
def rNil : retrier := (r0.Read envDialFail).1

/-- A full-Write environment whose provisional write fails and whose blocked
tail resumes against the nil-connection state `rNil`. -/
def wEnvNil : WriteCallEnv :=
  { slowOut := outFail, resumeState := rNil, resumeOut := outOK }

/-- A sample trace: a buffered write, a failed first read that retries, and
a CloseRead. -/
def trW : List Label :=
  [Label.lWrite [1, 2, 3] outOK, Label.lRead envRetryOK, Label.lCloseRead]

/-- C9: the timeout estimator returns exactly 1200 milliseconds
(1200000000 ns) plus twice the measured round trip time `after - before`. -/
theorem timeout_is_1200ms_plus_twice_rtt (before after : Int) :
    timeout before after = 1200 * 1000000 + 2 * (after - before) := by
  simp [timeout, millisecond]

/-- C2: `splitHello` returns two pieces whose concatenation is the payload;
for an empty payload both pieces are empty; for a non-empty payload and any
random draw, the split offset (length of the first piece) lies within
`[min MIN_SPLIT (L/2), min MAX_SPLIT (L/2)]`. -/
theorem splitHello_correct (hello : List Nat) (rnd : Nat) :
    ((splitHello hello rnd).1 ++ (splitHello hello rnd).2 = hello)
    ∧ (hello.length = 0 →
        (splitHello hello rnd).1 = [] ∧ (splitHello hello rnd).2 = [])
    ∧ (0 < hello.length → rnd ≤ MAX_SPLIT - MIN_SPLIT →
        min MIN_SPLIT (hello.length / 2) ≤ (splitHello hello rnd).1.length
        ∧ (splitHello hello rnd).1.length ≤ min MAX_SPLIT (hello.length / 2)) := by
  refine ⟨?_, ?_, ?_⟩
  · unfold splitHello
    split
    · simp_all [List.length_eq_zero]
    · simp
  · intro h0
    have he : hello = [] := List.length_eq_zero.mp h0
    subst he
    simp [splitHello]
  · intro hL hrnd
    simp only [MIN_SPLIT, MAX_SPLIT] at hrnd ⊢
    unfold splitHello
    rw [if_neg (by omega)]
    simp only [MIN_SPLIT, MAX_SPLIT, List.length_take]
    have hhalf : hello.length / 2 ≤ hello.length := Nat.div_le_self _ _
    constructor
    · split <;> omega
    · split <;> omega

/-- Witness for C2 at a concrete 80-byte payload and draw 5. -/
theorem splitHello_correct_witness :
    min MIN_SPLIT ((List.replicate 80 0).length / 2)
      ≤ (splitHello (List.replicate 80 0) 5).1.length
    ∧ (splitHello (List.replicate 80 0) 5).1.length
      ≤ min MAX_SPLIT ((List.replicate 80 0).length / 2) :=
  (splitHello_correct (List.replicate 80 0) 5).2.2 (by decide) (by decide)

/-- Helper: the retry procedure bumps both ghost counters by one and touches
no flag and not `hello`. -/
theorem retry_fields (r : retrier) (env : RetryEnv) :
    (r.retry env).1.retryCount = r.retryCount + 1
    ∧ (r.retry env).1.dialCount = r.dialCount + 1
    ∧ (r.retry env).1.retryCompleteFlag = r.retryCompleteFlag
    ∧ (r.retry env).1.readCloseFlag = r.readCloseFlag
    ∧ (r.retry env).1.writeCloseFlag = r.writeCloseFlag
    ∧ (r.retry env).1.hello = r.hello := by
  unfold retrier.retry
  cases env.dialErr <;> simp [Conn.write]
  cases env.writeOut1.err <;> simp
  cases env.writeOut2.err <;> simp

/-- Helper: once `retryCompleteFlag` is closed, no step reopens it, changes
either ghost counter, or changes `hello`. -/
theorem stepR_closed_frozen (r : retrier) (l : Label)
    (h : r.retryCompleteFlag = true) :
    (stepR r l).retryCompleteFlag = true
    ∧ (stepR r l).retryCount = r.retryCount
    ∧ (stepR r l).dialCount = r.dialCount
    ∧ (stepR r l).hello = r.hello := by
  cases l <;>
    simp only [stepR, retrier.Read, retrier.writeAttempt, retrier.writeResume,
      retrier.CloseRead, retrier.CloseWrite, h, Bool.true_eq_false, if_true,
      if_false, ite_true, ite_false] <;>
    repeat' first
      | (split <;> simp [h])
      | simp [h]

/-- Helper: once the flag is closed, whole traces keep it closed and freeze
both counters and `hello`. -/
theorem execTrace_closed_frozen (tr : List Label) (r : retrier)
    (h : r.retryCompleteFlag = true) :
    (execTrace r tr).retryCompleteFlag = true
    ∧ (execTrace r tr).retryCount = r.retryCount
    ∧ (execTrace r tr).dialCount = r.dialCount
    ∧ (execTrace r tr).hello = r.hello := by
  induction tr generalizing r with
  | nil => exact ⟨h, rfl, rfl, rfl⟩
  | cons l ls ih =>
      have hs := stepR_closed_frozen r l h
      have hi := ih (stepR r l) hs.1
      exact ⟨hi.1, hi.2.1.trans hs.2.1, hi.2.2.1.trans hs.2.2.1,
        hi.2.2.2.trans hs.2.2.2⟩

/-- Helper: a step either leaves both ghost counters unchanged, or it is a
`Read` that observed a failure while the flag was open, in which case both
counters rise by exactly one and the step closes the flag. -/
theorem stepR_count (r : retrier) (l : Label) :
    ((stepR r l).retryCount = r.retryCount
      ∧ (stepR r l).dialCount = r.dialCount)
    ∨ (r.retryCompleteFlag = false
        ∧ (stepR r l).retryCount = r.retryCount + 1
        ∧ (stepR r l).dialCount = r.dialCount + 1
        ∧ (stepR r l).retryCompleteFlag = true
        ∧ ∃ env, l = Label.lRead env
            ∧ (connRead r.conn env.readOut).2.isSome = true) := by
  cases l with
  | lRead env =>
      by_cases h0 : (connRead r.conn env.readOut).1 = 0
          ∧ (connRead r.conn env.readOut).2 = none
      · left
        constructor <;> simp [stepR, retrier.Read, h0]
      · by_cases hf : r.retryCompleteFlag = false
        · by_cases he : (connRead r.conn env.readOut).2.isSome = true
          · right
            have hr := retry_fields r env.retryEnv
            refine ⟨hf, ?_, ?_, ?_, env, rfl, he⟩ <;>
              simp [stepR, retrier.Read, h0, hf, he, hr.1, hr.2.1]
          · left
            constructor <;> simp [stepR, retrier.Read, h0, hf, he]
        · left
          constructor <;> simp [stepR, retrier.Read, h0, hf]
  | lWrite b out =>
      left
      constructor <;> (simp only [stepR, retrier.writeAttempt]; split <;> rfl)
  | lWriteResume b n out =>
      left
      constructor <;> (simp only [stepR]; split <;> rfl)
  | lCloseRead =>
      left
      constructor <;> (simp only [stepR, retrier.CloseRead]; split <;> rfl)
  | lCloseWrite =>
      left
      constructor <;> (simp only [stepR, retrier.CloseWrite]; split <;> rfl)
  | lReadFromChunk chunk out =>
      left
      constructor <;> (simp only [stepR, retrier.writeAttempt]; split <;> rfl)
  | lReadFromBulk data =>
      left
      constructor <;> (simp only [stepR]; split <;> rfl)

/-- Helper: `InvCount` is preserved by every step. -/
theorem invCount_step (r : retrier) (l : Label) (h : InvCount r) :
    InvCount (stepR r l) := by
  obtain ⟨h1, h2, h3⟩ := h
  rcases stepR_count r l with ⟨hc1, hc2⟩ | ⟨hf, hc1, hc2, hc3, _⟩
  · refine ⟨?_, by omega, by omega⟩
    intro hpf
    by_cases hft : r.retryCompleteFlag = true
    · rw [(stepR_closed_frozen r l hft).1] at hpf
      simp at hpf
    · have h0 := h1 (by simpa using hft)
      omega
  · have h0 := h1 hf
    refine ⟨?_, by omega, by omega⟩
    intro hpf
    rw [hc3] at hpf
    simp at hpf

/-- Helper: `InvCount` holds along every trace from a state satisfying it. -/
theorem invCount_exec (tr : List Label) (r : retrier) (h : InvCount r) :
    InvCount (execTrace r tr) := by
  induction tr generalizing r with
  | nil => exact h
  | cons l ls ih => exact ih (stepR r l) (invCount_step r l h)

/-- C1: along every operation sequence from construction the retry procedure
runs at most once; a step changes the retry counter only when it is a Read
that observed a failure while `retryCompleteFlag` was open (and that step
closes the flag); once the flag is closed no step ever runs the retry
procedure again. -/
theorem at_most_one_retry (t : Int) (tr : List Label) :
    (execTrace (DialWithSplitRetry t) tr).retryCount ≤ 1
    ∧ (∀ r l, (stepR r l).retryCount ≠ r.retryCount →
        r.retryCompleteFlag = false
        ∧ (stepR r l).retryCompleteFlag = true
        ∧ ∃ env, l = Label.lRead env
            ∧ (connRead r.conn env.readOut).2.isSome = true)
    ∧ (∀ r l, r.retryCompleteFlag = true →
        (stepR r l).retryCount = r.retryCount) := by
  refine ⟨?_, ?_, ?_⟩
  · have hinit : InvCount (DialWithSplitRetry t) :=
      ⟨fun _ => ⟨rfl, rfl⟩, by simp [DialWithSplitRetry], by simp [DialWithSplitRetry]⟩
    exact (invCount_exec tr (DialWithSplitRetry t) hinit).2.1
  · intro r l hne
    rcases stepR_count r l with ⟨hc1, _⟩ | ⟨hf, _, _, hc3, henv⟩
    · exact absurd hc1 hne
    · exact ⟨hf, hc3, henv⟩
  · intro r l hf
    exact (stepR_closed_frozen r l hf).2.1

/-- Witness for C1: a concrete trace with one triggered retry, and a step on
a retry-decided state that leaves the retry counter unchanged. -/
theorem at_most_one_retry_witness :
    (execTrace (DialWithSplitRetry 0) trW).retryCount ≤ 1
    ∧ (stepR rClosedOK Label.lCloseRead).retryCount = rClosedOK.retryCount :=
  ⟨(at_most_one_retry 0 trW).1,
   (at_most_one_retry 0 trW).2.2 rClosedOK Label.lCloseRead (by decide)⟩

/-- Helper: a step leaves `hello` unchanged, or is the flag-closing `Read`
that empties it, or is a buffered write (from `Write` or the `ReadFrom`
loop) while the flag is open that appends exactly the bytes the underlying
connection accepted. -/
theorem stepR_hello (r : retrier) (l : Label) :
    (stepR r l).hello = r.hello
    ∨ (r.retryCompleteFlag = false ∧ (stepR r l).hello = []
        ∧ (stepR r l).retryCompleteFlag = true ∧ ∃ env, l = Label.lRead env)
    ∨ (r.retryCompleteFlag = false
        ∧ ∃ b out, (l = Label.lWrite b out ∨ l = Label.lReadFromChunk b out)
          ∧ (stepR r l).hello = r.hello ++ b.take (connWrite r.conn b out).2.1
          ∧ (stepR r l).conn = (connWrite r.conn b out).1) := by
  cases l with
  | lRead env =>
      by_cases h0 : (connRead r.conn env.readOut).1 = 0
          ∧ (connRead r.conn env.readOut).2 = none
      · left
        simp [stepR, retrier.Read, h0]
      · by_cases hf : r.retryCompleteFlag = false
        · right; left
          refine ⟨hf, ?_, ?_, env, rfl⟩ <;> simp [stepR, retrier.Read, h0, hf]
        · left
          simp [stepR, retrier.Read, h0, hf]
  | lWrite b out =>
      by_cases hf : r.retryCompleteFlag = true
      · left
        simp [stepR, retrier.writeAttempt, hf]
      · have hf2 : r.retryCompleteFlag = false := by simpa using hf
        right; right
        exact ⟨hf2, b, out, Or.inl rfl,
          by simp [stepR, retrier.writeAttempt, hf2],
          by simp [stepR, retrier.writeAttempt, hf2]⟩
  | lWriteResume b n out =>
      left
      simp only [stepR]
      split <;> simp [retrier.writeResume]
  | lCloseRead =>
      left
      simp only [stepR, retrier.CloseRead]
      split <;> rfl
  | lCloseWrite =>
      left
      simp only [stepR, retrier.CloseWrite]
      split <;> rfl
  | lReadFromChunk b out =>
      by_cases hf : r.retryCompleteFlag = true
      · left
        simp [stepR, retrier.writeAttempt, hf]
      · have hf2 : r.retryCompleteFlag = false := by simpa using hf
        right; right
        exact ⟨hf2, b, out, Or.inr rfl,
          by simp [stepR, retrier.writeAttempt, hf2],
          by simp [stepR, retrier.writeAttempt, hf2]⟩
  | lReadFromBulk data =>
      left
      simp only [stepR]
      split <;> rfl

/-- Helper: the only step that closes an open flag also empties `hello`. -/
theorem stepR_flag_close (r : retrier) (l : Label)
    (hf : r.retryCompleteFlag = false)
    (hpf : (stepR r l).retryCompleteFlag = true) :
    (stepR r l).hello = [] := by
  cases l with
  | lRead env =>
      by_cases h0 : (connRead r.conn env.readOut).1 = 0
          ∧ (connRead r.conn env.readOut).2 = none
      · simp [stepR, retrier.Read, h0, hf] at hpf
      · simp [stepR, retrier.Read, h0, hf]
  | lWrite b out =>
      simp only [stepR, retrier.writeAttempt, hf] at hpf
      simp [hf] at hpf
  | lWriteResume b n out =>
      simp [stepR, hf] at hpf
  | lCloseRead =>
      simp only [stepR, retrier.CloseRead] at hpf
      rcases hr : r.readCloseFlag <;> simp [hr, hf] at hpf
  | lCloseWrite =>
      simp only [stepR, retrier.CloseWrite] at hpf
      rcases hw : r.writeCloseFlag <;> simp [hw, hf] at hpf
  | lReadFromChunk chunk out =>
      simp only [stepR, retrier.writeAttempt, hf] at hpf
      simp [hf] at hpf
  | lReadFromBulk data =>
      simp [stepR, hf] at hpf

/-- Helper: the invariant "flag closed implies `hello` empty" is preserved
by every step. -/
theorem invHello_step (r : retrier) (l : Label)
    (h : r.retryCompleteFlag = true → r.hello = []) :
    (stepR r l).retryCompleteFlag = true → (stepR r l).hello = [] := by
  intro hpf
  by_cases hf : r.retryCompleteFlag = true
  · rw [(stepR_closed_frozen r l hf).2.2.2]
    exact h hf
  · exact stepR_flag_close r l (by simpa using hf) hpf

/-- Helper: the `hello` invariant holds along every trace. -/
theorem invHello_exec (tr : List Label) (r : retrier)
    (h : r.retryCompleteFlag = true → r.hello = []) :
    (execTrace r tr).retryCompleteFlag = true → (execTrace r tr).hello = [] := by
  induction tr generalizing r with
  | nil => exact h
  | cons l ls ih => exact ih (stepR r l) (invHello_step r l h)

/-- C3: the replay buffer is empty at construction; along any trace it is
empty whenever `retryCompleteFlag` is closed; and any step that changes it
either is a buffered write while the flag is open appending exactly the
bytes the underlying connection accepted, or is the flag-closing `Read`
emptying it. -/
theorem hello_lifecycle (t : Int) (tr : List Label) :
    (DialWithSplitRetry t).hello = []
    ∧ ((execTrace (DialWithSplitRetry t) tr).retryCompleteFlag = true →
        (execTrace (DialWithSplitRetry t) tr).hello = [])
    ∧ (∀ r l, (stepR r l).hello ≠ r.hello →
        r.retryCompleteFlag = false
        ∧ ((∃ env, l = Label.lRead env ∧ (stepR r l).hello = []
              ∧ (stepR r l).retryCompleteFlag = true)
          ∨ (∃ b out,
              (l = Label.lWrite b out ∨ l = Label.lReadFromChunk b out)
              ∧ (stepR r l).hello
                  = r.hello ++ b.take (connWrite r.conn b out).2.1
              ∧ (stepR r l).conn = (connWrite r.conn b out).1))) := by
  refine ⟨rfl, ?_, ?_⟩
  · refine invHello_exec tr _ ?_
    intro hc
    simp [DialWithSplitRetry] at hc
  · intro r l hne
    rcases stepR_hello r l with h1 | ⟨hf, h2, h3, env, hl⟩ | ⟨hf, b, out, hl, h3, h4⟩
    · exact absurd h1 hne
    · exact ⟨hf, Or.inl ⟨env, hl, h2, h3⟩⟩
    · exact ⟨hf, Or.inr ⟨b, out, hl, h3, h4⟩⟩

/-- Witness for C3: concrete empty buffer at construction and after the
retry-deciding trace. -/
theorem hello_lifecycle_witness :
    (DialWithSplitRetry 0).hello = []
    ∧ (execTrace (DialWithSplitRetry 0) trW).hello = [] :=
  ⟨(hello_lifecycle 0 trW).1, (hello_lifecycle 0 trW).2.1 (by decide)⟩

/-- Helper: no step ever reopens `readCloseFlag` or `writeCloseFlag`. -/
theorem stepR_closeflags_mono (r : retrier) (l : Label) :
    (r.readCloseFlag = true → (stepR r l).readCloseFlag = true)
    ∧ (r.writeCloseFlag = true → (stepR r l).writeCloseFlag = true) := by
  cases l with
  | lRead env =>
      by_cases h0 : (connRead r.conn env.readOut).1 = 0
          ∧ (connRead r.conn env.readOut).2 = none
      · constructor <;> intro h <;> simp [stepR, retrier.Read, h0, h]
      · by_cases hf : r.retryCompleteFlag = false
        · by_cases he : (connRead r.conn env.readOut).2.isSome = true
          · have hr := retry_fields r env.retryEnv
            constructor <;> intro h <;>
              simp [stepR, retrier.Read, h0, hf, he, hr.2.2.2.1, hr.2.2.2.2.1, h]
          · constructor <;> intro h <;> simp [stepR, retrier.Read, h0, hf, he, h]
        · constructor <;> intro h <;> simp [stepR, retrier.Read, h0, hf, h]
  | lWrite b out =>
      constructor <;> intro h <;>
        (simp only [stepR, retrier.writeAttempt]; split <;> simpa)
  | lWriteResume b n out =>
      constructor <;> intro h <;>
        (simp only [stepR]; split <;> simp [retrier.writeResume, h])
  | lCloseRead =>
      constructor <;> intro h <;>
        (simp only [stepR, retrier.CloseRead]; split <;> simp [h])
  | lCloseWrite =>
      constructor <;> intro h <;>
        (simp only [stepR, retrier.CloseWrite]; split <;> simp [h])
  | lReadFromChunk chunk out =>
      constructor <;> intro h <;>
        (simp only [stepR, retrier.writeAttempt]; split <;> simpa)
  | lReadFromBulk data =>
      constructor <;> intro h <;>
        (simp only [stepR]; split <;> simp [h])

/-- C7: a zero-byte, nil-error read on a live connection is returned
unchanged and causes no state change at all: same flags, same buffer, no
retry. -/
theorem empty_read_passthrough (r : retrier) (env : ReadEnv) (c : Conn)
    (hc : r.conn = some c) (hn : env.readOut.n = 0)
    (herr : env.readOut.err = none) :
    r.Read env = (r, 0, none) := by
  unfold retrier.Read
  simp [connRead, hc, hn, herr]

/-- Witness for C7 on a freshly constructed stream. -/
theorem empty_read_passthrough_witness :
    (DialWithSplitRetry 0).Read envEmpty = (DialWithSplitRetry 0, 0, none) :=
  empty_read_passthrough (DialWithSplitRetry 0) envEmpty (Conn.fresh 0)
    rfl rfl rfl

/-- C8: calling CloseRead (or CloseWrite) a second time returns exactly the
same state and error as the first call, and once either close flag is set no
step ever clears it. -/
theorem closeReadWrite_idempotent (r s : retrier) (l : Label)
    (tr : List Label) :
    (r.CloseRead.1.CloseRead = r.CloseRead)
    ∧ (r.CloseWrite.1.CloseWrite = r.CloseWrite)
    ∧ (s.readCloseFlag = true → (execTrace s tr).readCloseFlag = true)
    ∧ (s.writeCloseFlag = true → (execTrace s tr).writeCloseFlag = true)
    ∧ (s.readCloseFlag = true → (stepR s l).readCloseFlag = true)
    ∧ (s.writeCloseFlag = true → (stepR s l).writeCloseFlag = true) := by
  refine ⟨?_, ?_, ?_, ?_, (stepR_closeflags_mono s l).1,
    (stepR_closeflags_mono s l).2⟩
  · cases hc : r.conn <;> cases hr : r.readCloseFlag <;>
      simp [retrier.CloseRead, connCloseRead, Conn.closeRead, hc, hr]
  · cases hc : r.conn <;> cases hw : r.writeCloseFlag <;>
      simp [retrier.CloseWrite, connCloseWrite, Conn.closeWrite, hc, hw]
  · induction tr generalizing s with
    | nil => exact fun h => h
    | cons a as ih =>
        intro h
        exact ih (stepR s a) ((stepR_closeflags_mono s a).1 h)
  · induction tr generalizing s with
    | nil => exact fun h => h
    | cons a as ih =>
        intro h
        exact ih (stepR s a) ((stepR_closeflags_mono s a).2 h)

/-- Witness for C8: double CloseRead on a fresh stream, and flag survival
across the sample trace. -/
theorem closeReadWrite_idempotent_witness :
    (DialWithSplitRetry 0).CloseRead.1.CloseRead
      = (DialWithSplitRetry 0).CloseRead
    ∧ (execTrace rCR trW).readCloseFlag = true :=
  ⟨(closeReadWrite_idempotent (DialWithSplitRetry 0) rCR Label.lCloseWrite trW).1,
   (closeReadWrite_idempotent (DialWithSplitRetry 0) rCR Label.lCloseWrite trW).2.2.1
     (by decide)⟩

/-- C6: when the retry dial succeeds and the two replay writes succeed (the
path on which the new connection's read result is what the blocked Read
returns), the retry procedure copies any half-close flag already set —
including one requested before any Write or Read — onto the new connection
before returning that connection's read result. -/
theorem retry_reapplies_halfclose (r : retrier) (env : RetryEnv) (c : Conn)
    (hd : env.dialErr = none) (h1 : env.writeOut1.err = none)
    (h2 : env.writeOut2.err = none) (hc : (r.retry env).1.conn = some c) :
    (r.readCloseFlag = true → c.readHalfClosed = true)
    ∧ (r.writeCloseFlag = true → c.writeHalfClosed = true)
    ∧ (r.retry env).2 = (env.readOut.n, env.readOut.err) := by
  have hc2 : c = ((r.retry env).1.conn).getD (Conn.fresh 0) := by
    rw [hc]
    rfl
  subst hc2
  refine ⟨?_, ?_, ?_⟩
  · intro hr
    unfold retrier.retry
    simp only [hd, h1, h2, Conn.write]
    cases hw : r.writeCloseFlag <;>
      simp [hr, hw, Conn.closeRead, Conn.closeWrite]
  · intro hw
    unfold retrier.retry
    simp only [hd, h1, h2, Conn.write]
    cases hr : r.readCloseFlag <;>
      simp [hr, hw, Conn.closeRead, Conn.closeWrite]
  · unfold retrier.retry
    simp [hd, h1, h2, Conn.write]

/-- Witness for C6: CloseRead before any I/O, then a successful retry; the
replacement connection has its read half closed. -/
theorem retry_reapplies_halfclose_witness :
    cWitness.readHalfClosed = true
    ∧ (rCR.retry retryEnvOK).2 = (4, none) :=
  ⟨(retry_reapplies_halfclose rCR retryEnvOK cWitness rfl rfl rfl
      (by decide)).1 (by decide),
   (retry_reapplies_halfclose rCR retryEnvOK cWitness rfl rfl rfl
      (by decide)).2.2⟩

/-- Counterexample to C4 as stated: a 4-byte write whose provisional write
accepts 2 bytes and errors, resuming against the nil post-retry connection
of a failed redial.  The claim predicts a count of `n` plus the remainder
count (2 + 0 = 2); Go's final `conn == nil` block (part_000 lines 208-211)
rewrites `b` to the nil `r.conn` and the call returns count 0. -/
theorem write_blocked_remainder_cex :
    ¬(((DialWithSplitRetry 0).Write [1, 2, 3, 4] wEnvNil).2.1
      = ((DialWithSplitRetry 0).writeAttempt [1, 2, 3, 4]
          wEnvNil.slowOut).2.1
        + (connWrite wEnvNil.resumeState.conn
            ([1, 2, 3, 4].drop
              ((DialWithSplitRetry 0).writeAttempt [1, 2, 3, 4]
                wEnvNil.slowOut).2.1)
            wEnvNil.resumeOut).2.1) := by
  decide

/-- C4 (amended): if the provisional (slow-path) write failed after `n`
bytes while the flag was open, `Write` blocks until the flag is closed and
then writes the unwritten remainder `b[n:]` to the connection current at
that moment.  If that connection is live, `Write` returns `n` plus the
remainder count and the remainder write's error; if the retry left it nil,
the final `conn == nil` block rewrites `b` to the nil connection and
`Write` returns `(0, EINVAL)` instead. -/
theorem write_blocked_remainder (r : retrier) (b : List Nat)
    (env : WriteCallEnv)
    (hopen : r.retryCompleteFlag = false)
    (herr : ((r.writeAttempt b env.slowOut).2.2).isSome = true)
    (_hres : env.resumeState.retryCompleteFlag = true) :
    (env.resumeState.conn.isSome = true →
      r.Write b env
        = env.resumeState.writeResume b (r.writeAttempt b env.slowOut).2.1
            env.resumeOut
      ∧ (r.Write b env).2.1
          = (r.writeAttempt b env.slowOut).2.1
            + (connWrite env.resumeState.conn
                (b.drop (r.writeAttempt b env.slowOut).2.1) env.resumeOut).2.1
      ∧ (r.Write b env).2.2
          = (connWrite env.resumeState.conn
              (b.drop (r.writeAttempt b env.slowOut).2.1) env.resumeOut).2.2)
    ∧ (env.resumeState.conn = none →
      (r.Write b env).2 = (0, some Err.einval)) := by
  constructor
  · intro hsome
    obtain ⟨c, hc⟩ := Option.isSome_iff_exists.mp hsome
    have hrw : r.Write b env
        = env.resumeState.writeResume b (r.writeAttempt b env.slowOut).2.1
            env.resumeOut := by
      unfold retrier.Write
      simp [hopen, herr, hc]
    refine ⟨hrw, ?_, ?_⟩ <;> rw [hrw] <;> simp [retrier.writeResume]
  · intro hnone
    unfold retrier.Write
    simp [hopen, herr, hnone, retrier.writeResume, connWrite]

/-- Witness for C4: the live-connection case with a 4-byte write whose
provisional write accepts 2 bytes and errors; the remainder goes to the
post-retry connection and its count is added. -/
theorem write_blocked_remainder_witness :
    ((DialWithSplitRetry 0).Write [1, 2, 3, 4] wEnvBlocked).2.1
      = ((DialWithSplitRetry 0).writeAttempt [1, 2, 3, 4]
          wEnvBlocked.slowOut).2.1
        + (connWrite wEnvBlocked.resumeState.conn
            ([1, 2, 3, 4].drop
              ((DialWithSplitRetry 0).writeAttempt [1, 2, 3, 4]
                wEnvBlocked.slowOut).2.1)
            wEnvBlocked.resumeOut).2.1 :=
  ((write_blocked_remainder (DialWithSplitRetry 0) [1, 2, 3, 4] wEnvBlocked
    rfl (by decide) (by decide)).1 (by decide)).2.1

/-- Helper: a `Read` that observes a failure while the flag is open runs the
retry procedure, closes the flag and clears `hello`. -/
theorem Read_retry_path (r : retrier) (env : ReadEnv)
    (hopen : r.retryCompleteFlag = false)
    (hfail : (connRead r.conn env.readOut).2.isSome = true) :
    r.Read env
      = ({ (r.retry env.retryEnv).1 with
            retryCompleteFlag := true, hello := [] },
         (r.retry env.retryEnv).2.1, (r.retry env.retryEnv).2.2) := by
  have h0 : ¬((connRead r.conn env.readOut).1 = 0
      ∧ (connRead r.conn env.readOut).2 = none) := by
    intro hcontra
    rw [hcontra.2] at hfail
    simp at hfail
  unfold retrier.Read
  simp [h0, hopen, hfail]

/-- Helper: when the dial inside the retry procedure fails, the connection
becomes nil and the dial error is returned with a zero count. -/
theorem retry_dialErr (r : retrier) (env : RetryEnv) (e : Err)
    (h : env.dialErr = some e) :
    (r.retry env).1.conn = none ∧ (r.retry env).2 = (0, some e) := by
  unfold retrier.retry
  simp [h]

/-- C5: a dial failure during retry becomes the blocked Read's result (count
0), the flag is closed anyway — so a Write blocked on it unblocks and its
remainder write reports a failure (`EINVAL` against the now-nil connection)
— and no later step of any trace ever dials again. -/
theorem dial_failure_fatal (r : retrier) (env : ReadEnv) (e : Err)
    (b : List Nat) (n : Nat) (out : WriteOutcome) (tr : List Label)
    (hopen : r.retryCompleteFlag = false)
    (hfail : (connRead r.conn env.readOut).2.isSome = true)
    (hdial : env.retryEnv.dialErr = some e) :
    (r.Read env).2.1 = 0
    ∧ (r.Read env).2.2 = some e
    ∧ (r.Read env).1.retryCompleteFlag = true
    ∧ (r.Read env).1.conn = none
    ∧ (execTrace (r.Read env).1 tr).dialCount = (r.Read env).1.dialCount
    ∧ ((r.Read env).1.writeResume b n out).2.1 = n
    ∧ ((r.Read env).1.writeResume b n out).2.2 = some Err.einval := by
  have hread := Read_retry_path r env hopen hfail
  have hre := retry_dialErr r env.retryEnv e hdial
  have hc : (r.Read env).1.conn = none := by
    rw [hread]
    exact hre.1
  have hf : (r.Read env).1.retryCompleteFlag = true := by
    rw [hread]
  refine ⟨?_, ?_, hf, hc, ?_, ?_, ?_⟩
  · rw [hread]
    simp [hre.2]
  · rw [hread]
    simp [hre.2]
  · exact (execTrace_closed_frozen tr (r.Read env).1 hf).2.2.1
  · simp [retrier.writeResume, connWrite, hc]
  · simp [retrier.writeResume, connWrite, hc]

/-- Witness for C5 at a concrete failed read with a failed redial. -/
theorem dial_failure_fatal_witness :
    ((DialWithSplitRetry 0).Read envDialFail).2.2 = some Err.dialFail
    ∧ (execTrace ((DialWithSplitRetry 0).Read envDialFail).1 trW).dialCount
        = ((DialWithSplitRetry 0).Read envDialFail).1.dialCount
    ∧ (((DialWithSplitRetry 0).Read envDialFail).1.writeResume [1, 2, 3] 1
        outOK).2.2 = some Err.einval :=
  ⟨(dial_failure_fatal (DialWithSplitRetry 0) envDialFail Err.dialFail
      [1, 2, 3] 1 outOK trW rfl (by decide) (by decide)).2.1,
   (dial_failure_fatal (DialWithSplitRetry 0) envDialFail Err.dialFail
      [1, 2, 3] 1 outOK trW rfl (by decide) (by decide)).2.2.2.2.1,
   (dial_failure_fatal (DialWithSplitRetry 0) envDialFail Err.dialFail
      [1, 2, 3] 1 outOK trW rfl (by decide) (by decide)).2.2.2.2.2.2⟩

/-- C10: after a failed retry dial the current connection is nil, and every
subsequent Write, CloseRead or CloseWrite returns an error without
delivering anything to any connection (the model records writes on
connections; a nil connection records nothing). -/
theorem nil_conn_ops_error (r : retrier) (env : ReadEnv) (e : Err)
    (b : List Nat) (wenv : WriteCallEnv)
    (hopen : r.retryCompleteFlag = false)
    (hfail : (connRead r.conn env.readOut).2.isSome = true)
    (hdial : env.retryEnv.dialErr = some e) :
    (r.Read env).1.conn = none
    ∧ ((r.Read env).1.Write b wenv).2 = (0, some Err.einval)
    ∧ ((r.Read env).1.Write b wenv).1.conn = none
    ∧ ((r.Read env).1.CloseRead).2 = some Err.einval
    ∧ ((r.Read env).1.CloseRead).1.conn = none
    ∧ ((r.Read env).1.CloseWrite).2 = some Err.einval
    ∧ ((r.Read env).1.CloseWrite).1.conn = none := by
  have hread := Read_retry_path r env hopen hfail
  have hre := retry_dialErr r env.retryEnv e hdial
  have hc : (r.Read env).1.conn = none := by
    rw [hread]
    exact hre.1
  have hf : (r.Read env).1.retryCompleteFlag = true := by
    rw [hread]
  refine ⟨hc, ?_, ?_, ?_, ?_, ?_, ?_⟩
  · simp [retrier.Write, retrier.writeAttempt, connWrite, hc, hf]
  · simp [retrier.Write, retrier.writeAttempt, connWrite, hc, hf]
  · cases hrc : (r.Read env).1.readCloseFlag <;>
      simp [retrier.CloseRead, connCloseRead, hc, hrc]
  · cases hrc : (r.Read env).1.readCloseFlag <;>
      simp [retrier.CloseRead, connCloseRead, hc, hrc]
  · cases hwc : (r.Read env).1.writeCloseFlag <;>
      simp [retrier.CloseWrite, connCloseWrite, hc, hwc]
  · cases hwc : (r.Read env).1.writeCloseFlag <;>
      simp [retrier.CloseWrite, connCloseWrite, hc, hwc]

/-- Witness for C10 at the same concrete failed redial. -/
theorem nil_conn_ops_error_witness :
    ((DialWithSplitRetry 0).Read envDialFail).1.conn = none
    ∧ (((DialWithSplitRetry 0).Read envDialFail).1.Write [9] wEnvBlocked).2
        = (0, some Err.einval)
    ∧ (((DialWithSplitRetry 0).Read envDialFail).1.CloseRead).2
        = some Err.einval :=
  ⟨(nil_conn_ops_error (DialWithSplitRetry 0) envDialFail Err.dialFail [9]
      wEnvBlocked rfl (by decide) (by decide)).1,
   (nil_conn_ops_error (DialWithSplitRetry 0) envDialFail Err.dialFail [9]
      wEnvBlocked rfl (by decide) (by decide)).2.1,
   (nil_conn_ops_error (DialWithSplitRetry 0) envDialFail Err.dialFail [9]
      wEnvBlocked rfl (by decide) (by decide)).2.2.2.1⟩
